import Mathlib

/-
  Verification development for the pushgo SimplePush worker
  (simplepush/worker code in the repository).

  Shallow embedding: JSON payloads are modelled by the inductive JVal,
  Go util.JsMap by assoc lists, the per-session mutable state
  (sock.Uaid and the worker state field) by the structure Sess, and the
  side effects of handlers (websocket sends, Scmd dispatcher commands,
  storage calls, socket closes) by explicit effect lists.  External
  collaborators (Store, dispatcher, GenUUID4) are modelled by oracles
  supplied as parameters, since their code is outside the worker.
  A Go panic caused by a failed type assertion is modelled by the
  BodyRes.panic outcome; the deferred recover wrappers of the handlers
  map it to InvalidDataError exactly as the source does.
-/

namespace SimplePush

/-- JSON values, as produced by json.Unmarshal into a util.JsMap. -/
inductive JVal where
  | null : JVal
  | boolean : Bool → JVal
  | num : Int → JVal
  | str : String → JVal
  | arr : List JVal → JVal
  | obj : List (String × JVal) → JVal

/-- Model of util.JsMap, a JSON object decoded as a string-keyed map. -/
abbrev JMap := List (String × JVal)

/-- Go map read m[k] returning the value when the key is present. -/
def jlook (m : JMap) (k : String) : Option JVal :=
  match m.find? (fun p => p.1 == k) with
  | some p => some p.2
  | none => none

/-- Go map read with the zero value: a missing key reads as nil,
which serializes as JSON null. -/
def jlookD (m : JMap) (k : String) : JVal :=
  (jlook m k).getD JVal.null

/-- The comma-ok form: whether the key is present at all. -/
def hasKey (m : JMap) (k : String) : Bool :=
  (jlook m k).isSome

/-- Go test m[k] == nil: true when the key is absent or its value is
JSON null (both read as a nil interface value). -/
def isNil (m : JMap) (k : String) : Bool :=
  match jlook m k with
  | none => true
  | some JVal.null => true
  | some _ => false

/-- Overwrite of a key in a map: m[k] = v. -/
def jset (m : JMap) (k : String) (v : JVal) : JMap :=
  (m.filter fun p => p.1 != k) ++ [(k, v)]

/-- Go len(s) on a string: its byte length in UTF-8. -/
def goLen (s : String) : Nat :=
  s.utf8ByteSize

/-- Model of strings.ToLower on one character.  Faithful on ASCII,
which is the alphabet the worker validates against; uppercase A-Z maps
to a-z, everything else is unchanged. -/
def goCharToLower (c : Char) : Char :=
  if 65 ≤ c.toNat ∧ c.toNat ≤ 90 then Char.ofNat (c.toNat + 32) else c

/-- Model of strings.ToLower, mapping the lowering over the
characters of the string. -/
def goToLower (s : String) : String :=
  String.mk (s.data.map goCharToLower)

/-- Membership in the character class of the compiled filter
regexp.MustCompile of the pattern that excludes everything but word
characters and the hyphen: digits, letters, underscore, hyphen. -/
def wordHyphen (c : Char) : Bool :=
  (48 ≤ c.toNat && c.toNat ≤ 57) || (65 ≤ c.toNat && c.toNat ≤ 90) ||
    (97 ≤ c.toNat && c.toNat ≤ 122) || c == '_' || c == '-'

/-- The test filter.Find on a string: whether the compiled filter
finds any character outside the word-or-hyphen class. -/
def filterFindsInvalid (s : String) : Bool :=
  s.data.any fun c => !wordHyphen c

/-- Worker state constant INACTIVE = 0. -/
def INACTIVE : Nat := 0

/-- Worker state constant ACTIVE = 1. -/
def ACTIVE : Nat := 1

/-- Constant UAID_MAX_LEN = 100. -/
def UAID_MAX_LEN : Nat := 100

/-- Constant CHID_MAX_LEN = 100. -/
def CHID_MAX_LEN : Nat := 100

/-- The per-session mutable state: sock.Uaid (reached through the
pointer receiver in Hello) and the worker state field. -/
structure Sess where
  uaid : String
  state : Nat
  deriving Repr, DecidableEq

/-- Error values from the sperrors taxonomy that the worker raises,
plus a constructor for arbitrary errors passed through from storage. -/
inductive SpErr where
  | unknownCommand : SpErr
  | invalidCommand : SpErr
  | missingData : SpErr
  | invalidData : SpErr
  | other : Nat → SpErr
  deriving Repr, DecidableEq

/-- Observable side effects of the worker: websocket sends, dispatcher
commands over sock.Scmd, storage calls and socket closes.  sendError
models handleError, which augments the given message with status and
error fields mapped by the sperrors taxonomy and sends it. -/
inductive Effect where
  | sendJSON : JMap → Effect
  | sendError : JMap → SpErr → Effect
  | scmdDie : Effect
  | scmdHello : String → JVal → Effect
  | scmdRegis : JMap → Effect
  | sockClose : Effect
  | storeSetUAIDHost : String → Effect
  | storeGetUpdates : String → Int → Effect
  | storeAck : String → JMap → Effect
  | storeRegisterAppID : String → String → Int → Effect
  | storeDeleteAppID : String → String → Bool → Effect

/-- Outcome of a handler body: a normal return carrying the optional
error value, or a panic escaping the body (a failed type assertion). -/
inductive BodyRes where
  | ret : Option SpErr → BodyRes
  | panic : BodyRes

/-- Oracles for the external collaborators: the storage back end, the
dispatcher responses and GenUUID4.  An Option SpErr result of none
models a nil error. -/
structure Oracles where
  setUAIDHost : String → Option SpErr
  ackStore : String → JMap → Option SpErr
  registerAppID : String → String → Option SpErr
  deleteAppID : String → String → Option SpErr
  getUpdates : String → Int → Except SpErr (Option JMap)
  genUUID : String
  helloStatus : Int
  regisArgs : JVal

/-- The storage fetch half of Worker.Flush: the GetUpdates call result
handling (error reply, silent return on nil updates, or the update
envelope stamped with messageType notification). -/
def flushFetch (st : Sess) (lastAccessed : Int) (o : Oracles) : List Effect :=
  match o.getUpdates st.uaid lastAccessed with
  | Except.error e => [Effect.sendError [("messageType", JVal.str "notification")] e]
  | Except.ok none => []
  | Except.ok (some updates) =>
      [Effect.sendJSON (jset updates "messageType" (JVal.str "notification"))]

/-- Worker.Flush.  On an empty UAID it logs, issues DIE and closes the
socket, and then falls through with no early return, so the
GetUpdates call is made in every case, exactly as in the source. -/
def flushEffects (st : Sess) (lastAccessed : Int) (o : Oracles) : List Effect :=
  (if st.uaid = "" then [Effect.scmdDie, Effect.sockClose] else []) ++
    (Effect.storeGetUpdates st.uaid lastAccessed :: flushFetch st lastAccessed o)

/-- The tail of Worker.Hello after the UAID has been settled: send the
HELLO command to the dispatcher, record the UAID host binding (an
error returns early), send the hello reply, set state ACTIVE and
flush. -/
def helloRest (st : Sess) (data : JMap) (o : Oracles) : Sess × List Effect × BodyRes :=
  let e1 := Effect.scmdHello st.uaid (jlookD data "channelIDs")
  let e2 := Effect.storeSetUAIDHost st.uaid
  match o.setUAIDHost st.uaid with
  | some err => (st, [e1, e2], BodyRes.ret (some err))
  | none =>
    let reply := [("messageType", jlookD data "messageType"),
                  ("status", JVal.num o.helloStatus),
                  ("uaid", JVal.str st.uaid)]
    let st2 : Sess := { st with state := ACTIVE }
    (st2, [e1, e2, Effect.sendJSON reply] ++ flushEffects st2 0 o, BodyRes.ret none)

/-- Core of Worker.Hello after the uaid key has been defaulted.
A missing or null channelIDs value returns MissingData.
When the session UAID is non-empty, a different non-empty presented
UAID returns InvalidCommand (the type assertion on the uaid value is
evaluated here and panics on a non-string).  When the session UAID is
empty, the presented UAID is assigned to the session before the
length check, exactly as in the source; an over-long value returns
InvalidData with the assignment already made, and an empty value is
replaced by a minted UUID. -/
def helloCore (st : Sess) (data : JMap) (o : Oracles) : Sess × List Effect × BodyRes :=
  if isNil data "channelIDs" then (st, [], BodyRes.ret (some SpErr.missingData))
  else
    if st.uaid = "" then
      match jlook data "uaid" with
      | some (JVal.str d) =>
        let st1 : Sess := { st with uaid := d }
        if goLen st1.uaid > UAID_MAX_LEN then (st1, [], BodyRes.ret (some SpErr.invalidData))
        else
          let st2 : Sess := if st1.uaid = "" then { st1 with uaid := o.genUUID } else st1
          helloRest st2 data o
      | _ => (st, [], BodyRes.panic)
    else
      match jlook data "uaid" with
      | some (JVal.str d) =>
        if d ≠ "" ∧ st.uaid ≠ d then (st, [], BodyRes.ret (some SpErr.invalidCommand))
        else helloRest st data o
      | _ => (st, [], BodyRes.panic)

/-- Body of Worker.Hello: the uaid key is defaulted to the empty
string when absent, then the core runs on the defaulted map. -/
def helloBody (st : Sess) (data0 : JMap) (o : Oracles) : Sess × List Effect × BodyRes :=
  helloCore st (if hasKey data0 "uaid" then data0 else data0 ++ [("uaid", JVal.str "")]) o

/-- The deferred recover wrapper shared by Hello, Ack, Register and
Unregister: a panic in the body is recovered and turned into the
InvalidData error; effects already performed are kept. -/
def recoverWrap : Sess × List Effect × BodyRes → Sess × List Effect × Option SpErr
  | (st, effs, BodyRes.panic) => (st, effs, some SpErr.invalidData)
  | (st, effs, BodyRes.ret e) => (st, effs, e)

/-- Worker.Hello with its recover wrapper. -/
def hello (st : Sess) (data : JMap) (o : Oracles) : Sess × List Effect × Option SpErr :=
  recoverWrap (helloBody st data o)

/-- Body of Worker.Ack: InvalidCommand on an empty session UAID,
MissingData on a missing updates field, otherwise the Store.Ack call;
on success Flush runs, on failure the error is returned. -/
def ackBody (st : Sess) (data : JMap) (o : Oracles) : Sess × List Effect × BodyRes :=
  if st.uaid = "" then (st, [], BodyRes.ret (some SpErr.invalidCommand))
  else if isNil data "updates" then (st, [], BodyRes.ret (some SpErr.missingData))
  else
    let eff := Effect.storeAck st.uaid data
    match o.ackStore st.uaid data with
    | none => (st, eff :: flushEffects st 0 o, BodyRes.ret none)
    | some e => (st, [eff], BodyRes.ret (some e))

/-- Worker.Ack with its recover wrapper. -/
def ack (st : Sess) (data : JMap) (o : Oracles) : Sess × List Effect × Option SpErr :=
  recoverWrap (ackBody st data o)

/-- The endpoint extraction of Worker.Register: the Go expression
asserts that the dispatcher response arguments form a JsMap and that
its pushEndpoint entry is a string; the extraction yields the string
when both hold and panics (none) otherwise. -/
def extractEndpoint (v : JVal) : Option String :=
  match v with
  | JVal.obj args =>
    match jlook args "pushEndpoint" with
    | some (JVal.str s) => some s
    | _ => none
  | _ => none

/-- Body of Worker.Register: InvalidCommand on an empty session UAID,
MissingData on a missing channelID, a panic on a non-string channelID,
InvalidData past the length bound or when the filter finds a character
outside the word-or-hyphen class in the lower-cased ID, otherwise the
Store.RegisterAppID call followed by the REGIS dispatcher round trip;
extracting the pushEndpoint string from the dispatcher response
panics when the response does not carry one. -/
def registerBody (st : Sess) (data : JMap) (o : Oracles) : Sess × List Effect × BodyRes :=
  if st.uaid = "" then (st, [], BodyRes.ret (some SpErr.invalidCommand))
  else if isNil data "channelID" then (st, [], BodyRes.ret (some SpErr.missingData))
  else
    match jlook data "channelID" with
    | some (JVal.str appid) =>
      if goLen appid > CHID_MAX_LEN then (st, [], BodyRes.ret (some SpErr.invalidData))
      else if filterFindsInvalid (goToLower appid) then
        (st, [], BodyRes.ret (some SpErr.invalidData))
      else
        let e1 := Effect.storeRegisterAppID st.uaid appid 0
        match o.registerAppID st.uaid appid with
        | some e => (st, [e1], BodyRes.ret (some e))
        | none =>
          let e2 := Effect.scmdRegis data
          match extractEndpoint o.regisArgs with
          | some endpoint =>
            let reply := [("messageType", jlookD data "messageType"),
                          ("uaid", JVal.str st.uaid),
                          ("status", JVal.num 200),
                          ("channelID", jlookD data "channelID"),
                          ("pushEndpoint", JVal.str endpoint)]
            (st, [e1, e2, Effect.sendJSON reply], BodyRes.ret none)
          | none => (st, [e1, e2], BodyRes.panic)
    | some _ => (st, [], BodyRes.panic)
    | none => (st, [], BodyRes.panic)

/-- Worker.Register with its recover wrapper. -/
def register (st : Sess) (data : JMap) (o : Oracles) : Sess × List Effect × Option SpErr :=
  recoverWrap (registerBody st data o)

/-- Body of Worker.Unregister: InvalidCommand on an empty session
UAID, MissingData on a missing channelID, a panic on a non-string
channelID; otherwise Store.DeleteAppID is called with its result
discarded and the success reply with status 200 is always sent. -/
def unregisterBody (st : Sess) (data : JMap) : Sess × List Effect × BodyRes :=
  if st.uaid = "" then (st, [], BodyRes.ret (some SpErr.invalidCommand))
  else if isNil data "channelID" then (st, [], BodyRes.ret (some SpErr.missingData))
  else
    match jlook data "channelID" with
    | some (JVal.str appid) =>
      let reply := [("messageType", jlookD data "messageType"),
                    ("status", JVal.num 200),
                    ("channelID", JVal.str appid)]
      (st, [Effect.storeDeleteAppID st.uaid appid false, Effect.sendJSON reply],
        BodyRes.ret none)
    | some _ => (st, [], BodyRes.panic)
    | none => (st, [], BodyRes.panic)

/-- Worker.Unregister with its recover wrapper. -/
def unregister (st : Sess) (data : JMap) : Sess × List Effect × Option SpErr :=
  recoverWrap (unregisterBody st data)

/-- Worker.Ping: no state check and no recover wrapper; it always
sends a reply with status 200 echoing the messageType and returns a
nil error. -/
def ping (st : Sess) (data : JMap) : Sess × List Effect × Option SpErr :=
  (st, [Effect.sendJSON [("messageType", jlookD data "messageType"),
                         ("status", JVal.num 200)]], none)

/-- Outcome of one iteration of the inbound branch of Worker.Run:
either the loop continues with the new session state and the effects
of the iteration, or a panic escaped into Run itself (the dispatch
type assertion on a non-string messageType) and the loop unwinds. -/
inductive StepOut where
  | cont : Sess → List Effect → StepOut
  | panicked : Sess → List Effect → StepOut

/-- One inbound iteration of Worker.Run: an empty decoded buffer is
coerced to a ping message; a missing messageType sends an error reply
on an empty map and continues; the type assertion on the messageType
value panics on a non-string; otherwise the lower-cased value selects
a handler, an unknown value yields UnknownCommand, and a handler
error is reported with handleError on the buffer, after which the
loop continues. -/
def runStep (st : Sess) (buffer0 : JMap) (o : Oracles) : StepOut :=
  let buffer := if buffer0.length = 0 then [("messageType", JVal.str "ping")] else buffer0
  match jlook buffer "messageType" with
  | none => StepOut.cont st [Effect.sendError [] SpErr.unknownCommand]
  | some (JVal.str mt) =>
    let r :=
      match goToLower mt with
      | "hello" => hello st buffer o
      | "ack" => ack st buffer o
      | "register" => register st buffer o
      | "unregister" => unregister st buffer
      | "ping" => ping st buffer
      | _ => (st, ([] : List Effect), some SpErr.unknownCommand)
    match r with
    | (st1, effs, some e) => StepOut.cont st1 (effs ++ [Effect.sendError buffer e])
    | (st1, effs, none) => StepOut.cont st1 effs
  | some _ => StepOut.panicked st []

/-- The teardown effects run when Worker.Run unwinds: every iteration
of the loop registered one deferred function, and each one sends DIE
to the dispatcher and closes the socket. -/
def runTeardown (n : Nat) : List Effect :=
  (List.replicate n [Effect.scmdDie, Effect.sockClose]).flatten

/-- The inbound-message processing of Worker.Run over a list of
decoded buffers.  The defers argument counts the deferred teardown
functions registered by earlier iterations; each new message registers
one more before it is handled.  When the dispatch panics, all
accumulated deferred functions run and the loop terminates (the Bool
result records termination); otherwise the loop continues and, when
the message list is exhausted, blocks without any teardown. -/
def runMsgs (o : Oracles) : Sess → List JMap → Nat → Sess × List Effect × Bool
  | st, [], _ => (st, [], false)
  | st, m :: rest, defers =>
    match runStep st m o with
    | StepOut.cont st1 effs =>
      let r := runMsgs o st1 rest (defers + 1)
      (r.1, effs ++ r.2.1, r.2.2)
    | StepOut.panicked st1 effs =>
      (st1, effs ++ runTeardown (defers + 1), true)

/-- A raw frame received from the websocket: an empty payload, a
non-empty payload that fails to decode, or a non-empty payload that
decodes to the given map. -/
inductive Frame where
  | empty : Frame
  | bad : Frame
  | ok : JMap → Frame

/-- Worker.sniffer over the list of frames the transport delivers
before the read errors out.  Only non-empty payloads are examined: an
empty payload is skipped without being forwarded; a decode failure
breaks the loop.  On exit the sniffer sends DIE to the dispatcher and
closes the socket. -/
def snifferRun : List Frame → List JMap × List Effect
  | [] => ([], [Effect.scmdDie, Effect.sockClose])
  | Frame.empty :: rest => snifferRun rest
  | Frame.bad :: _ => ([], [Effect.scmdDie, Effect.sockClose])
  | Frame.ok m :: rest =>
    let r := snifferRun rest
    (m :: r.1, r.2)

/-- The effects the run loop produces for a list of raw frames: the
sniffer forwards the decoded messages and the run loop processes
them. -/
def sessionEffects (st : Sess) (frames : List Frame) (o : Oracles) : List Effect :=
  (runMsgs o st (snifferRun frames).1 0).2.1

/-- All effects of a session over a list of raw frames: the sniffer
teardown effects together with the run loop effects. -/
def sessionAllEffects (st : Sess) (frames : List Frame) (o : Oracles) : List Effect :=
  (snifferRun frames).2 ++ sessionEffects st frames o

/-- Number of DIE commands in an effect list. -/
def dieCount (effs : List Effect) : Nat :=
  effs.countP fun e => match e with | Effect.scmdDie => true | _ => false

/-- Number of socket closes in an effect list. -/
def closeCount (effs : List Effect) : Nat :=
  effs.countP fun e => match e with | Effect.sockClose => true | _ => false

/-- A fixed oracle assignment used for concrete evaluations: all
storage calls succeed, GetUpdates finds nothing pending, the
dispatcher acknowledges hello with 200 and answers REGIS with a
pushEndpoint. -/
def oTest : Oracles :=
  { setUAIDHost := fun _ => none
    ackStore := fun _ _ => none
    registerAppID := fun _ _ => none
    deleteAppID := fun _ _ => none
    getUpdates := fun _ _ => Except.ok none
    genUUID := "d9b74644-4f97-46aa-b8fa-9393985cd6cd"
    helloStatus := 200
    regisArgs := JVal.obj [("pushEndpoint", JVal.str "https://example.org/update/c1")] }

/-! Helper lemmas about the recover wrapper and the hello tail. -/

/-- The recover wrapper does not change the session state. -/
theorem recoverWrap_fst (x : Sess × List Effect × BodyRes) :
    (recoverWrap x).1 = x.1 := by
  obtain ⟨a, b, c⟩ := x
  cases c <;> rfl

/-- The recover wrapper does not change the effect list. -/
theorem recoverWrap_effs (x : Sess × List Effect × BodyRes) :
    (recoverWrap x).2.1 = x.2.1 := by
  obtain ⟨a, b, c⟩ := x
  cases c <;> rfl

/-- The tail of Hello never changes the session UAID: only the state
field is touched there. -/
theorem helloRest_uaid (st : Sess) (data : JMap) (o : Oracles) :
    (helloRest st data o).1.uaid = st.uaid := by
  unfold helloRest
  split <;> rfl

/-- On a session whose UAID is non-empty, no branch of the Hello core
writes the UAID field. -/
theorem helloCore_uaid_stable (st : Sess) (data : JMap) (o : Oracles) (h : st.uaid ≠ "") :
    (helloCore st data o).1.uaid = st.uaid := by
  unfold helloCore
  by_cases hn : isNil data "channelIDs" = true
  · rw [if_pos hn]
  · rw [if_neg hn, if_neg h]
    cases hj : jlook data "uaid" with
    | none => rfl
    | some v =>
      cases v with
      | str d =>
        by_cases hc : d ≠ "" ∧ st.uaid ≠ d
        · simp [hc]
        · simp [hc, helloRest_uaid]
      | null => rfl
      | boolean b => rfl
      | num n => rfl
      | arr l => rfl
      | obj l => rfl

/-- On a session whose UAID is non-empty, no branch of the Hello body
writes the UAID field. -/
theorem helloBody_uaid_stable (st : Sess) (msg : JMap) (o : Oracles) (h : st.uaid ≠ "") :
    (helloBody st msg o).1.uaid = st.uaid :=
  helloCore_uaid_stable st _ o h

/-! C1 -/

/-- C1 counterexample: on a session in phase inactive (empty uaid, no
successful hello), the ping handler does not return the
invalid-command error as the claim states: it succeeds, returning a
nil error and sending a reply with status 200. -/
theorem C1_counterexample :
    ping ⟨"", INACTIVE⟩ [("messageType", JVal.str "ping")] =
      (⟨"", INACTIVE⟩,
       [Effect.sendJSON [("messageType", JVal.str "ping"), ("status", JVal.num 200)]],
       none) := rfl

/-- C1 amended: for every session with an empty uaid, register,
unregister and ack each return invalid-command without performing any
operation or sending any reply; ping, however, performs no phase
check at all and succeeds (nil error) even while inactive. -/
theorem C1_amended (st : Sess) (msg : JMap) (o : Oracles) (h : st.uaid = "") :
    register st msg o = (st, [], some SpErr.invalidCommand) ∧
    unregister st msg = (st, [], some SpErr.invalidCommand) ∧
    ack st msg o = (st, [], some SpErr.invalidCommand) ∧
    (ping st msg).2.2 = none := by
  refine ⟨?_, ?_, ?_, rfl⟩ <;>
    simp [register, registerBody, unregister, unregisterBody, ack, ackBody, recoverWrap, h]

/-- C1 witness: the amended statement instantiated on a fresh inactive
session and concrete messages. -/
theorem C1_witness :
    register ⟨"", INACTIVE⟩ [("messageType", JVal.str "register"), ("channelID", JVal.str "abc")] oTest =
      (⟨"", INACTIVE⟩, [], some SpErr.invalidCommand) ∧
    unregister ⟨"", INACTIVE⟩ [("messageType", JVal.str "register"), ("channelID", JVal.str "abc")] =
      (⟨"", INACTIVE⟩, [], some SpErr.invalidCommand) ∧
    ack ⟨"", INACTIVE⟩ [("messageType", JVal.str "register"), ("channelID", JVal.str "abc")] oTest =
      (⟨"", INACTIVE⟩, [], some SpErr.invalidCommand) ∧
    (ping ⟨"", INACTIVE⟩ [("messageType", JVal.str "register"), ("channelID", JVal.str "abc")]).2.2 = none :=
  C1_amended ⟨"", INACTIVE⟩
    [("messageType", JVal.str "register"), ("channelID", JVal.str "abc")] oTest rfl

/-! C2 -/

/-- C2: once the session uaid is non-empty it never changes across any
hello: the resulting session keeps the same uaid for every message and
every oracle, and a hello presenting a different non-empty uaid (with
the required channelIDs field present) returns invalid-command. -/
theorem C2_uaid_immutable (st : Sess) (msg : JMap) (o : Oracles) (h : st.uaid ≠ "") :
    (hello st msg o).1.uaid = st.uaid ∧
    (∀ d : String, isNil msg "channelIDs" = false →
      jlook msg "uaid" = some (JVal.str d) → d ≠ "" → d ≠ st.uaid →
      (hello st msg o).2.2 = some SpErr.invalidCommand) := by
  constructor
  · unfold hello
    rw [recoverWrap_fst]
    exact helloBody_uaid_stable st msg o h
  · intro d hch hu hd hds
    have hk : hasKey msg "uaid" = true := by
      unfold hasKey
      rw [hu]
      rfl
    have hcond : d ≠ "" ∧ st.uaid ≠ d := ⟨hd, fun e => hds e.symm⟩
    simp [hello, helloBody, helloCore, recoverWrap, hk, hch, hu, h, hcond]

/-- C2 witness: a session with uaid u1 receiving a hello presenting
uaid u2 keeps u1 and answers invalid-command. -/
theorem C2_witness :
    (hello ⟨"u1", ACTIVE⟩
        [("messageType", JVal.str "hello"), ("uaid", JVal.str "u2"),
         ("channelIDs", JVal.arr [])] oTest).1.uaid = "u1" ∧
    (hello ⟨"u1", ACTIVE⟩
        [("messageType", JVal.str "hello"), ("uaid", JVal.str "u2"),
         ("channelIDs", JVal.arr [])] oTest).2.2 = some SpErr.invalidCommand :=
  ⟨(C2_uaid_immutable ⟨"u1", ACTIVE⟩
      [("messageType", JVal.str "hello"), ("uaid", JVal.str "u2"),
       ("channelIDs", JVal.arr [])] oTest (by decide)).1,
   (C2_uaid_immutable ⟨"u1", ACTIVE⟩
      [("messageType", JVal.str "hello"), ("uaid", JVal.str "u2"),
       ("channelIDs", JVal.arr [])] oTest (by decide)).2 "u2" rfl rfl
      (by decide) (by decide)⟩

/-! C3 -/

/-- C3: on an active session (non-empty uaid), an unregister message
carrying a string channelID always produces the success reply with
status 200 and a nil handler error, whatever the store does: the
DeleteAppID result is discarded by the source, so the reply does not
depend on it, and the claim holds for every channel whether or not it
was ever registered. -/
theorem C3_unregister_always_200 (st : Sess) (msg : JMap) (appid : String)
    (h : st.uaid ≠ "") (hc : jlook msg "channelID" = some (JVal.str appid)) :
    unregister st msg =
      (st, [Effect.storeDeleteAppID st.uaid appid false,
            Effect.sendJSON [("messageType", jlookD msg "messageType"),
                             ("status", JVal.num 200),
                             ("channelID", JVal.str appid)]], none) := by
  have hn : isNil msg "channelID" = false := by
    unfold isNil
    rw [hc]
  simp [unregister, unregisterBody, recoverWrap, h, hn, hc]

/-- C3 witness: unregister of a never-registered channel on an active
session replies with status 200. -/
theorem C3_witness :
    unregister ⟨"u1", ACTIVE⟩
        [("messageType", JVal.str "unregister"), ("channelID", JVal.str "never-registered")] =
      (⟨"u1", ACTIVE⟩,
       [Effect.storeDeleteAppID "u1" "never-registered" false,
        Effect.sendJSON [("messageType", JVal.str "unregister"),
                         ("status", JVal.num 200),
                         ("channelID", JVal.str "never-registered")]], none) :=
  C3_unregister_always_200 ⟨"u1", ACTIVE⟩
    [("messageType", JVal.str "unregister"), ("channelID", JVal.str "never-registered")]
    "never-registered" (by decide) rfl

/-! C4 -/

/-- A hello message whose uaid field carries a number instead of a
string: the field access in the handler body panics. -/
def helloPanicMsg (k : Int) : JMap :=
  [("messageType", JVal.str "hello"), ("channelIDs", JVal.arr []), ("uaid", JVal.num k)]

/-- The Hello core panics on a non-string uaid value, whatever the
session state: the type assertion fails on both the comparison path
and the adoption path. -/
theorem helloPanic_core (st : Sess) (o : Oracles) (k : Int) :
    helloCore st (helloPanicMsg k) o = (st, [], BodyRes.panic) := by
  obtain ⟨u, s⟩ := st
  by_cases hs : u = ""
  · subst hs; rfl
  · simp [helloCore, helloPanicMsg, isNil, jlook, hs]

/-- One run-loop iteration on a hello message with a non-string uaid:
the handler panic is recovered, converted to InvalidData, and an
error reply is sent; the loop continues. -/
theorem helloPanic_step (st : Sess) (o : Oracles) (k : Int) :
    runStep st (helloPanicMsg k) o =
      StepOut.cont st [Effect.sendError (helloPanicMsg k) SpErr.invalidData] := by
  obtain ⟨u, s⟩ := st
  by_cases hs : u = ""
  · subst hs; rfl
  · have hlow : goToLower "hello" = "hello" := rfl
    simp [runStep, hello, helloBody, helloCore, recoverWrap, helloPanicMsg, isNil, jlook,
      hasKey, hlow, hs]

/-- A message whose messageType value is a number panics in the
dispatch switch of Run itself, outside every handler recovery. -/
theorem badTypeMsg_step (st : Sess) (o : Oracles) (k : Int) :
    runStep st [("messageType", JVal.num k)] o = StepOut.panicked st [] := by
  rfl

/-- C4 counterexample: the inbound message whose messageType field is
the number 3 raises a panic while being handled (the dispatch type
assertion), and that panic is not converted into the invalid-data
error: no error reply is sent, the session is torn down through the
accumulated deferred function, and the following ping message is
never processed, so the run loop does not continue. -/
theorem C4_counterexample :
    runMsgs oTest ⟨"", INACTIVE⟩
        [[("messageType", JVal.num 3)], [("messageType", JVal.str "ping")]] 0 =
      (⟨"", INACTIVE⟩, [Effect.scmdDie, Effect.sockClose], true) := rfl

/-- C4 amended: a panic raised inside a wrapped handler body (here the
hello handler on a non-string uaid field) is recovered and converted
into invalid-data, an error reply is sent and the run loop continues
with the remaining messages; but a message whose messageType value is
itself of the wrong dynamic type panics in the dispatch switch of the
run loop, outside the handler recovery: the session is torn down by
the accumulated deferred functions instead of replying invalid-data. -/
theorem C4_amended (st : Sess) (o : Oracles) (rest : List JMap) (k : Int) (d : Nat) :
    (runMsgs o st (helloPanicMsg k :: rest) d =
      ((runMsgs o st rest (d + 1)).1,
       Effect.sendError (helloPanicMsg k) SpErr.invalidData :: (runMsgs o st rest (d + 1)).2.1,
       (runMsgs o st rest (d + 1)).2.2)) ∧
    (runMsgs o st ([("messageType", JVal.num k)] :: rest) d =
      (st, runTeardown (d + 1), true)) := by
  constructor
  · simp only [runMsgs, helloPanic_step, List.singleton_append]
  · simp only [runMsgs, badTypeMsg_step, List.nil_append]

/-! C5 -/

/-- C5 counterexample: on an active session, a register message whose
channelID is the empty string is accepted: Store.RegisterAppID is
called and the success reply with status 200 is sent, although the
empty string does not match the plus-quantified lower-case pattern of
the claim, which requires at least one character. -/
theorem C5_counterexample :
    register ⟨"u1", ACTIVE⟩
        [("messageType", JVal.str "register"), ("channelID", JVal.str "")] oTest =
      (⟨"u1", ACTIVE⟩,
       [Effect.storeRegisterAppID "u1" "" 0,
        Effect.scmdRegis [("messageType", JVal.str "register"), ("channelID", JVal.str "")],
        Effect.sendJSON
          [("messageType", JVal.str "register"),
           ("uaid", JVal.str "u1"),
           ("status", JVal.num 200),
           ("channelID", JVal.str ""),
           ("pushEndpoint", JVal.str "https://example.org/update/c1")]],
       none) := rfl

/-- C5 amended: on an active session, register accepts a string
channelID, calling Store.RegisterAppID, exactly when its byte length
is at most 100 and the filter finds no character outside the
word-or-hyphen class in its lower-cased form; the empty string
satisfies this and is accepted even though it does not match the
plus-quantified pattern.  On any violation register returns
invalid-data without any storage call. -/
theorem C5_amended (st : Sess) (msg : JMap) (o : Oracles) (appid : String)
    (h : st.uaid ≠ "") (hc : jlook msg "channelID" = some (JVal.str appid)) :
    ((Effect.storeRegisterAppID st.uaid appid 0 ∈ (register st msg o).2.1) ↔
      (goLen appid ≤ CHID_MAX_LEN ∧ filterFindsInvalid (goToLower appid) = false)) ∧
    (¬ (goLen appid ≤ CHID_MAX_LEN ∧ filterFindsInvalid (goToLower appid) = false) →
      register st msg o = (st, [], some SpErr.invalidData)) := by
  have hn : isNil msg "channelID" = false := by
    unfold isNil
    rw [hc]
  by_cases h1 : goLen appid ≤ CHID_MAX_LEN
  · by_cases h2 : filterFindsInvalid (goToLower appid) = true
    · have hb : registerBody st msg o = (st, [], BodyRes.ret (some SpErr.invalidData)) := by
        unfold registerBody
        simp [h, hn, hc, Nat.not_lt.mpr h1, h2]
      constructor
      · simp [register, hb, recoverWrap, h2]
      · intro hcontra
        simp [register, hb, recoverWrap]
    · have h2f : filterFindsInvalid (goToLower appid) = false := by
        simpa using h2
      have hex : ∃ tl, (registerBody st msg o).2.1 =
          Effect.storeRegisterAppID st.uaid appid 0 :: tl := by
        unfold registerBody
        simp only [h, hn, hc, Nat.not_lt.mpr h1, h2f]
        simp only [if_neg h, Bool.false_eq_true, if_false]
        split
        · exact ⟨_, rfl⟩
        · split
          · exact ⟨_, rfl⟩
          · exact ⟨_, rfl⟩
      constructor
      · obtain ⟨tl, htl⟩ := hex
        rw [show (register st msg o).2.1 = (registerBody st msg o).2.1 from
          recoverWrap_effs (registerBody st msg o), htl]
        simp [h1, h2f]
      · intro hcontra
        exact absurd ⟨h1, h2f⟩ hcontra
  · have h1' : CHID_MAX_LEN < goLen appid := Nat.not_le.mp h1
    have hb : registerBody st msg o = (st, [], BodyRes.ret (some SpErr.invalidData)) := by
      unfold registerBody
      simp [h, hn, hc, h1']
    constructor
    · simp [register, hb, recoverWrap, h1]
    · intro hcontra
      simp [register, hb, recoverWrap]

/-- C5 witness: the channelID c1 is accepted on an active session, by
the amended equivalence. -/
theorem C5_witness :
    Effect.storeRegisterAppID "u1" "c1" 0 ∈
      (register ⟨"u1", ACTIVE⟩
        [("messageType", JVal.str "register"), ("channelID", JVal.str "c1")] oTest).2.1 :=
  (C5_amended ⟨"u1", ACTIVE⟩
      [("messageType", JVal.str "register"), ("channelID", JVal.str "c1")] oTest "c1"
      (by decide) rfl).1.mpr (by decide)

/-! C6 -/

/-- A UAID of 101 bytes. -/
def uaid101 : String := String.mk (List.replicate 101 'a')

/-- A UAID of 100 bytes. -/
def uaid100 : String := String.mk (List.replicate 100 'b')

/-- C6 counterexample: a hello presenting the 101-byte uaid on a fresh
session fails with invalid-data as claimed, but the session uaid is
not still empty afterwards: the source assigns the presented value to
the session before validating its length, so the session keeps the
rejected 101-byte uaid. -/
theorem C6_counterexample :
    hello ⟨"", INACTIVE⟩
        [("messageType", JVal.str "hello"), ("uaid", JVal.str uaid101),
         ("channelIDs", JVal.arr [])] oTest =
      (⟨uaid101, INACTIVE⟩, [], some SpErr.invalidData) ∧
    uaid101 ≠ "" := ⟨rfl, by decide⟩

/-- C6 amended: on a fresh session (empty uaid) receiving a hello with
the channelIDs field present and a string uaid of byte length 100,
the presented uaid is adopted; with byte length 101 the hello fails
with invalid-data, but the session uaid has already been overwritten
with the presented 101-byte value, because the source assigns before
validating, so the uaid does not stay empty after the failed hello. -/
theorem C6_amended (st : Sess) (msg : JMap) (o : Oracles) (u : String)
    (h : st.uaid = "") (hu : jlook msg "uaid" = some (JVal.str u))
    (hch : isNil msg "channelIDs" = false) :
    (goLen u = 100 → (hello st msg o).1.uaid = u) ∧
    (goLen u = 101 → hello st msg o = ({ st with uaid := u }, [], some SpErr.invalidData)) := by
  have hk : hasKey msg "uaid" = true := by
    unfold hasKey
    rw [hu]
    rfl
  constructor
  · intro h100
    have hne : u ≠ "" := by
      intro e
      subst e
      exact absurd h100 (by decide)
    have hlt : ¬ goLen u > UAID_MAX_LEN := by
      rw [h100]
      decide
    unfold hello helloBody helloCore
    simp [hk, hch, h, hu, hlt, hne, recoverWrap_fst, helloRest_uaid]
  · intro h101
    have hgt : goLen u > UAID_MAX_LEN := by
      rw [h101]
      decide
    unfold hello helloBody helloCore recoverWrap
    simp [hk, hch, h, hu, hgt]

/-- C6 witness: the amended statement instantiated on a fresh session
and a 100-byte uaid, which is adopted. -/
theorem C6_witness :
    (hello ⟨"", INACTIVE⟩
        [("messageType", JVal.str "hello"), ("uaid", JVal.str uaid100),
         ("channelIDs", JVal.arr [])] oTest).1.uaid = uaid100 :=
  (C6_amended ⟨"", INACTIVE⟩
      [("messageType", JVal.str "hello"), ("uaid", JVal.str uaid100),
       ("channelIDs", JVal.arr [])] oTest uaid100 rfl rfl rfl).1 (by decide)

/-! C7 -/

/-- C7 counterexample: a frame with an empty payload produces no
reply at all, because the sniffer only forwards non-empty payloads to
the run loop, while the frame that decodes to the explicit ping
message produces the ping reply with status 200; the two are
therefore not treated identically. -/
theorem C7_counterexample :
    sessionEffects ⟨"", INACTIVE⟩ [Frame.empty] oTest = [] ∧
    sessionEffects ⟨"", INACTIVE⟩ [Frame.ok [("messageType", JVal.str "ping")]] oTest =
      [Effect.sendJSON [("messageType", JVal.str "ping"), ("status", JVal.num 200)]] :=
  ⟨rfl, rfl⟩

/-- C7 amended: the coercion to ping applies to a frame that decodes
to an empty JSON object, which the run loop treats identically to the
explicit ping message; a frame whose raw payload is empty, by
contrast, is skipped by the sniffer and never forwarded, so it gets
no reply. -/
theorem C7_amended (st : Sess) (o : Oracles) (rest : List JMap) (d : Nat)
    (frames : List Frame) :
    runMsgs o st (([] : JMap) :: rest) d =
      runMsgs o st ([("messageType", JVal.str "ping")] :: rest) d ∧
    snifferRun (Frame.empty :: frames) = snifferRun frames :=
  ⟨rfl, rfl⟩

/-! C8 -/

/-- C8 counterexample: Flush on a session with an empty uaid logs,
issues die and closes the socket as claimed, but then still calls
Store.GetUpdates with the empty uaid: the source has no early return
after the die, so the effect list contains the GetUpdates call,
contradicting the part of the claim that says GetUpdates is called
only in the non-empty-uaid case. -/
theorem C8_counterexample :
    flushEffects ⟨"", INACTIVE⟩ 0 oTest =
      [Effect.scmdDie, Effect.sockClose, Effect.storeGetUpdates "" 0] := rfl

/-- C8 amended: whenever Flush runs on a session with an empty uaid,
it logs, issues die to the dispatcher and closes the socket, and then
falls through and still calls Store.GetUpdates with the empty uaid,
because the empty-uaid branch has no early return. -/
theorem C8_amended (st : Sess) (la : Int) (o : Oracles) (h : st.uaid = "") :
    ∃ tail, flushEffects st la o =
      Effect.scmdDie :: Effect.sockClose :: Effect.storeGetUpdates "" la :: tail :=
  ⟨flushFetch st la o, by simp [flushEffects, h]⟩

/-- C8 witness: the amended statement at a concrete empty-uaid session
and timestamp. -/
theorem C8_witness :
    ∃ tail, flushEffects ⟨"", INACTIVE⟩ 5 oTest =
      Effect.scmdDie :: Effect.sockClose :: Effect.storeGetUpdates "" 5 :: tail :=
  C8_amended ⟨"", INACTIVE⟩ 5 oTest rfl

/-! C9 -/

/-- Unfolding of the run-loop teardown by one deferred function. -/
theorem runTeardown_succ (k : Nat) :
    runTeardown (k + 1) = Effect.scmdDie :: Effect.sockClose :: runTeardown k := by
  simp [runTeardown, List.replicate_succ]

/-- The accumulated deferred functions emit one die each. -/
theorem dieCount_runTeardown (n : Nat) : dieCount (runTeardown n) = n := by
  induction n with
  | zero => rfl
  | succ k ih =>
    unfold dieCount at *
    rw [runTeardown_succ, List.countP_cons, List.countP_cons, ih]
    simp

/-- The accumulated deferred functions close the socket once each. -/
theorem closeCount_runTeardown (n : Nat) : closeCount (runTeardown n) = n := by
  induction n with
  | zero => rfl
  | succ k ih =>
    unfold closeCount at *
    rw [runTeardown_succ, List.countP_cons, List.countP_cons, ih]
    simp

/-- C9 counterexample: a session whose transport delivers a ping
frame, then a frame whose messageType is a number, and then a read
error, emits three die commands and closes the socket three times
over its lifetime: each of the two inbound messages registered one
deferred teardown in the run loop, both of which run when the
dispatch panic unwinds, and the sniffer adds its own die and close on
exit; the claim of exactly one die and one close is false. -/
theorem C9_counterexample :
    dieCount (sessionAllEffects ⟨"", INACTIVE⟩
        [Frame.ok [("messageType", JVal.str "ping")],
         Frame.ok [("messageType", JVal.num 1)]] oTest) = 3 ∧
    closeCount (sessionAllEffects ⟨"", INACTIVE⟩
        [Frame.ok [("messageType", JVal.str "ping")],
         Frame.ok [("messageType", JVal.num 1)]] oTest) = 3 := ⟨rfl, rfl⟩

/-- C9 amended: teardown is not exactly-once.  The sniffer exit path
always contributes exactly one die and one socket close, and when the
run loop terminates (its dispatch panic unwinds), it emits at least
one more die and close per teardown level: with d deferred teardowns
already registered, at least d + 1 dies and closes are emitted,
because one deferred teardown is registered per inbound message
received and all of them run on unwind. -/
theorem C9_amended :
    (∀ frames : List Frame,
      dieCount (snifferRun frames).2 = 1 ∧ closeCount (snifferRun frames).2 = 1) ∧
    (∀ (o : Oracles) (st : Sess) (msgs : List JMap) (d : Nat),
      (runMsgs o st msgs d).2.2 = true →
      d + 1 ≤ dieCount (runMsgs o st msgs d).2.1 ∧
      d + 1 ≤ closeCount (runMsgs o st msgs d).2.1) := by
  constructor
  · intro frames
    induction frames with
    | nil => exact ⟨rfl, rfl⟩
    | cons f rest ih =>
      cases f with
      | empty => simpa [snifferRun] using ih
      | bad => exact ⟨rfl, rfl⟩
      | ok m => simpa [snifferRun] using ih
  · intro o st msgs
    induction msgs generalizing st with
    | nil =>
      intro d hd
      simp [runMsgs] at hd
    | cons m rest ih =>
      intro d hd
      cases hstep : runStep st m o with
      | cont st1 effs =>
        have heq : runMsgs o st (m :: rest) d =
            ((runMsgs o st1 rest (d + 1)).1,
             effs ++ (runMsgs o st1 rest (d + 1)).2.1,
             (runMsgs o st1 rest (d + 1)).2.2) := by
          simp [runMsgs, hstep]
        rw [heq] at hd ⊢
        have h2 := ih st1 (d + 1) hd
        unfold dieCount closeCount at *
        rw [List.countP_append, List.countP_append]
        omega
      | panicked st1 effs =>
        have heq : runMsgs o st (m :: rest) d = (st1, effs ++ runTeardown (d + 1), true) := by
          simp [runMsgs, hstep]
        rw [heq]
        have hdie := dieCount_runTeardown (d + 1)
        have hclose := closeCount_runTeardown (d + 1)
        unfold dieCount closeCount at *
        rw [List.countP_append, List.countP_append]
        omega

/-- C9 witness: the run loop dying on its first message emits at
least one die and one close. -/
theorem C9_witness :
    0 + 1 ≤ dieCount (runMsgs oTest ⟨"", INACTIVE⟩ [[("messageType", JVal.num 1)]] 0).2.1 ∧
    0 + 1 ≤ closeCount (runMsgs oTest ⟨"", INACTIVE⟩ [[("messageType", JVal.num 1)]] 0).2.1 :=
  C9_amended.2 oTest ⟨"", INACTIVE⟩ [[("messageType", JVal.num 1)]] 0 rfl

/-! C10 -/

/-- Whether a dispatcher REGIS response carries a string-valued
pushEndpoint argument. -/
def hasStrEndpoint (v : JVal) : Bool :=
  (extractEndpoint v).isSome

/-- C10: on an active session, with a valid string channelID, when
Store.RegisterAppID succeeds but the dispatcher response does not
carry a string-valued pushEndpoint, the endpoint extraction panics,
the recover wrapper converts the panic to invalid-data, and the
already-performed RegisterAppID storage call stays in the effect
list while no success reply is sent: register is not atomic on this
path. -/
theorem C10_register_not_atomic (st : Sess) (msg : JMap) (o : Oracles) (appid : String)
    (h : st.uaid ≠ "") (hc : jlook msg "channelID" = some (JVal.str appid))
    (hlen : goLen appid ≤ CHID_MAX_LEN)
    (hfil : filterFindsInvalid (goToLower appid) = false)
    (hstore : o.registerAppID st.uaid appid = none)
    (hep : hasStrEndpoint o.regisArgs = false) :
    register st msg o =
      (st, [Effect.storeRegisterAppID st.uaid appid 0, Effect.scmdRegis msg],
       some SpErr.invalidData) := by
  have hn : isNil msg "channelID" = false := by
    unfold isNil
    rw [hc]
  have hne : extractEndpoint o.regisArgs = none := by
    unfold hasStrEndpoint at hep
    cases hx : extractEndpoint o.regisArgs with
    | none => rfl
    | some s =>
      rw [hx] at hep
      simp at hep
  have hb : registerBody st msg o =
      (st, [Effect.storeRegisterAppID st.uaid appid 0, Effect.scmdRegis msg],
       BodyRes.panic) := by
    unfold registerBody
    simp only [h, hn, hc, Nat.not_lt.mpr hlen, hfil, if_neg h, Bool.false_eq_true, if_false,
      hstore, hne]
  simp [register, hb, recoverWrap]

/-- A dispatcher oracle whose REGIS response carries no pushEndpoint. -/
def oNoEndpoint : Oracles := { oTest with regisArgs := JVal.obj [] }

/-- C10 witness: the non-atomic error path at a concrete session,
message and dispatcher response without a pushEndpoint. -/
theorem C10_witness :
    register ⟨"u1", ACTIVE⟩
        [("messageType", JVal.str "register"), ("channelID", JVal.str "c1")] oNoEndpoint =
      (⟨"u1", ACTIVE⟩,
       [Effect.storeRegisterAppID "u1" "c1" 0,
        Effect.scmdRegis [("messageType", JVal.str "register"), ("channelID", JVal.str "c1")]],
       some SpErr.invalidData) :=
  C10_register_not_atomic ⟨"u1", ACTIVE⟩
    [("messageType", JVal.str "register"), ("channelID", JVal.str "c1")] oNoEndpoint "c1"
    (by decide) rfl (by decide) (by decide) rfl rfl

end SimplePush
